import Mathlib

/-!
Shallow embedding of `MaxText/llama_or_mistral_ckpt.py`: the weight-layout
conversion from Llama/Mistral checkpoints to the MaxText layout.

Tensors are modelled as curried index functions (numpy arrays in row-major
order); a trailing axis that the code slices with `[..., ::2]` is modelled as
a `List`.  Machine floats are modelled over an arbitrary `DivisionRing`
(instantiated at `ℚ` in concrete witnesses); `np.sqrt(head_dim)` enters the
pipeline only as an opaque scalar parameter, so it is passed explicitly.
-/

namespace MaxTextCkpt

/-- One entry of `MODEL_PARAMS_DICT` (llama_or_mistral_ckpt.py lines 59-152). -/
structure ModelParams where
  num_layers : Nat
  num_heads : Nat
  num_kv_heads : Nat
  dims_per_head : Nat
  vocab : Nat
  base_emb_dim : Option Nat := none
  base_mlp_dim : Option Nat := none
  num_experts : Option Nat := none
  deriving DecidableEq, Repr

/-- `MODEL_PARAMS_DICT` (lines 59-152): the supported model sizes. -/
def MODEL_PARAMS_DICT : List (String × ModelParams) :=
  [ ("llama2-70b", { num_layers := 80, num_heads := 64, num_kv_heads := 8,
                     dims_per_head := 128, vocab := 32000 }),
    ("llama2-13b", { num_layers := 40, num_heads := 40, num_kv_heads := 40,
                     dims_per_head := 128, vocab := 32000 }),
    ("llama2-7b", { num_layers := 32, num_heads := 32, num_kv_heads := 32,
                    dims_per_head := 128, vocab := 32000 }),
    ("llama3-8b", { num_layers := 32, num_heads := 32, num_kv_heads := 8,
                    dims_per_head := 128, vocab := 128256 }),
    ("llama3-70b", { num_layers := 80, num_heads := 64, num_kv_heads := 8,
                     dims_per_head := 128, vocab := 128256 }),
    ("llama3.1-8b", { num_layers := 32, num_heads := 32, num_kv_heads := 8,
                      dims_per_head := 128, vocab := 128256 }),
    ("llama3.1-70b", { num_layers := 80, num_heads := 64, num_kv_heads := 8,
                       dims_per_head := 128, vocab := 128256 }),
    ("llama3.1-405b", { num_layers := 126, num_heads := 128, num_kv_heads := 8,
                        dims_per_head := 128, vocab := 128256 }),
    ("llama3.3-70b", { num_layers := 80, num_heads := 64, num_kv_heads := 8,
                       dims_per_head := 128, vocab := 128256 }),
    ("mistral-7b", { num_layers := 32, num_heads := 32, num_kv_heads := 8,
                     dims_per_head := 128, vocab := 32000,
                     base_emb_dim := some 4096, base_mlp_dim := some 14336 }),
    ("mixtral-8x7b", { num_layers := 32, num_heads := 32, num_kv_heads := 8,
                       dims_per_head := 128, vocab := 32000,
                       base_emb_dim := some 4096, base_mlp_dim := some 14336,
                       num_experts := some 8 }),
    ("mixtral-8x22b", { num_layers := 56, num_heads := 48, num_kv_heads := 8,
                        dims_per_head := 128, vocab := 32768,
                        base_emb_dim := some 6144, base_mlp_dim := some 16384,
                        num_experts := some 8 }) ]

/-- The supported model-size identifiers (the keys of `MODEL_PARAMS_DICT`). -/
def supported_model_sizes : List String := MODEL_PARAMS_DICT.map Prod.fst

/-- The `MODEL_PARAMS_DICT` entry for `llama2-70b`, used as a concrete
configuration with `num_kv_heads ≠ num_heads`. -/
def llama2_70b_params : ModelParams :=
  { num_layers := 80, num_heads := 64, num_kv_heads := 8,
    dims_per_head := 128, vocab := 32000 }

/-- `llama3_variants = {"llama3.1", "llama3.3"}` (line 154). -/
def llama3_variants : List String := ["llama3.1", "llama3.3"]

/-- `SIMULATED_CPU_DEVICES_COUNT = 16` (line 156). -/
def SIMULATED_CPU_DEVICES_COUNT : Nat := 16

/-! ### RoPE permutation (lines 239-242)

`permute_to_match_maxtext_rope(arr)` computes `arr[..., ::2]`, `arr[..., 1::2]`
and concatenates them along the last axis.  The last axis is modelled as a
`List`; the remaining axes as a function argument. -/

/-- The elements of a list at even positions: `l[::2]` on the last axis. -/
def sliceEvens {α : Type*} : List α → List α
  | [] => []
  | [x] => [x]
  | x :: _ :: xs => x :: sliceEvens xs

/-- The elements of a list at odd positions: `l[1::2]` on the last axis. -/
def sliceOdds {α : Type*} : List α → List α
  | [] => []
  | _ :: xs => sliceEvens xs

/-- `permute_to_match_maxtext_rope` (lines 239-242) on one last-axis fibre:
evens then odds, concatenated. -/
def permute_to_match_maxtext_rope {α : Type*} (arr : List α) : List α :=
  sliceEvens arr ++ sliceOdds arr

/-- `permute_to_match_maxtext_rope` on a full tensor: the operation acts on
the last axis only, every other axis (bundled into the index `ι`) unchanged. -/
def permute_rope_nd {ι α : Type*} (arr : ι → List α) : ι → List α :=
  fun i => permute_to_match_maxtext_rope (arr i)

/-- Elementwise interleaving of two sequences: element `2i` from the first,
element `2i+1` from the second (for equal lengths). -/
def interleave {α : Type*} : List α → List α → List α
  | x :: xs, y :: ys => x :: y :: interleave xs ys
  | xs, [] => xs
  | [], ys => ys

/-! ### RoPE application conditions (lines 769, 526) -/

/-- Condition guarding the RoPE permutation on the PyTorch-shard path
(line 769): `model_size[:8] not in llama3_variants`. -/
def pytorch_applies_rope (model_size : String) : Bool :=
  !(llama3_variants.contains (model_size.take 8))

/-- Condition guarding the RoPE permutation on the HuggingFace safetensors
path (line 526): `model_size[:8] == "llama3.1"`. -/
def hf_applies_rope (model_size : String) : Bool :=
  model_size.take 8 == "llama3.1"

/-- The PyTorch path's conditional RoPE step applied to a reshaped query or
key kernel (lines 769-771). -/
def pytorch_rope_step {ι α : Type*} (model_size : String) (w : ι → List α) : ι → List α :=
  if pytorch_applies_rope model_size then permute_rope_nd w else w

/-- The HuggingFace path's conditional RoPE step applied to a reshaped query
or key kernel (lines 526-528). -/
def hf_rope_step {ι α : Type*} (model_size : String) (w : ι → List α) : ι → List α :=
  if hf_applies_rope model_size then permute_rope_nd w else w

/-! ### Sharding-placement selector (lines 977-986) -/

/-- The three possible placements chosen by `checkpoint_device_put`:
shard along axis 0 (`s1`), shard along axis 1 (`s2`), or replicate (`s3`). -/
inductive ShardChoice where
  | axis0
  | axis1
  | replicate
  deriving DecidableEq, Repr

/-- `checkpoint_device_put` (lines 977-986), on the shape of the array: the
leading axis length `s0`, the remaining axis lengths `rest`, and the device
count.  `arr.shape[0] % device_count == 0` shards axis 0; else if
`len(arr.shape) > 1 and arr.shape[1] % device_count == 0` shards axis 1;
else replicates. -/
def checkpoint_device_put (s0 : Nat) (rest : List Nat) (device_count : Nat) :
    ShardChoice :=
  if s0 % device_count = 0 then .axis0
  else
    match rest with
    | s1 :: _ => if s1 % device_count = 0 then .axis1 else .replicate
    | [] => .replicate

/-! ### numpy transpose / reshape combinators

Tensors of known rank are curried index functions; `np.transpose(a, axes=p)`
with permutation `p` reads `out[i₀,…] = in[i_{p₀},…]` reindexed so that the
old index along axis `p k` is the new index along axis `k`. -/

/-- `numpy().transpose()` on a 2-D tensor. -/
def np_transpose2 {α : Type*} (f : Nat → Nat → α) : Nat → Nat → α :=
  fun i j => f j i

/-- `np.transpose(a, axes=(1, 0, 2))` on a 3-D tensor. -/
def np_transpose_102 {α : Type*} (f : Nat → Nat → Nat → α) : Nat → Nat → Nat → α :=
  fun a b c => f b a c

/-- `np.transpose(a, axes=(1, 0, 2, 3))` on a 4-D tensor. -/
def np_transpose_1023 {α : Type*} (f : Nat → Nat → Nat → Nat → α) :
    Nat → Nat → Nat → Nat → α :=
  fun a b c d => f b a c d

/-- `np.transpose(a, axes=(2, 0, 3, 1))` on a 4-D tensor:
`out[a, b, c, d] = in[b, d, a, c]`. -/
def np_transpose_2031 {α : Type*} (f : Nat → Nat → Nat → Nat → α) :
    Nat → Nat → Nat → Nat → α :=
  fun a b c d => f b d a c

/-- `np.reshape(m, [r, H, D])` of a 2-D row-major tensor of shape `(r, H*D)`:
the reshape splits the trailing axis, so entry `(i, h, d)` is `m[i, h*D+d]`. -/
def np_reshape_rank3 {α : Type*} (D : Nat) (m : Nat → Nat → α) :
    Nat → Nat → Nat → α :=
  fun i h d => m i (h * D + d)

/-! ### The layer-stacking accumulation loop

The conversion loops follow one pattern (e.g. lines 780-790): on the first
iteration the accumulator is `None`, so a zero-filled array of shape
`(num_layers,) + w.shape` is allocated; every iteration then overwrites the
slice at the current layer index.  `stackStep` is one iteration; `stackLoop`
runs the loop over `range L`. -/

/-- One iteration of the accumulation loop: allocate zeros if the accumulator
is still `None` (`np.zeros`), then write slice `l` (`kernel[l, ...] = v`). -/
def stackStep {β : Type*} [Zero β] (acc : Option (Nat → β)) (l : Nat) (v : β) :
    Option (Nat → β) :=
  let a := acc.getD (fun _ => 0)
  some (Function.update a l v)

/-- The accumulation loop `for layer_idx in range(L): ...` writing slice
`w layer_idx` at each layer index. -/
def stackLoop {β : Type*} [Zero β] (L : Nat) (w : Nat → β) : Option (Nat → β) :=
  (List.range L).foldl (fun acc l => stackStep acc l (w l)) none

/-- The stacked array produced by the accumulation loop (defaulting to the
zero array when the loop body never ran, i.e. `L = 0`). -/
def stackResult {β : Type*} [Zero β] (L : Nat) (w : Nat → β) : Nat → β :=
  (stackLoop L w).getD (fun _ => 0)

/-- One iteration of the two-index (expert, layer) accumulation loop
(lines 904-912): allocate zeros on first use, then `kernel[e, l, ...] = v`. -/
def stackStep2 {β : Type*} [Zero β] (acc : Option (Nat → Nat → β)) (e l : Nat)
    (v : β) : Option (Nat → Nat → β) :=
  let a := acc.getD (fun _ _ => 0)
  some (fun e' l' => if e' = e ∧ l' = l then v else a e' l')

/-- The nested mixture-of-experts accumulation loop:
`for layer_idx in range(L): for k in range(E): kernel[k, layer_idx] = w k layer_idx`. -/
def stackLoop2 {β : Type*} [Zero β] (E L : Nat) (w : Nat → Nat → β) :
    Option (Nat → Nat → β) :=
  (List.range L).foldl
    (fun acc l => (List.range E).foldl (fun acc2 e => stackStep2 acc2 e l (w e l)) acc)
    none

/-- The stacked (expert, layer) array produced by the nested loop. -/
def stackResult2 {β : Type*} [Zero β] (E L : Nat) (w : Nat → Nat → β) :
    Nat → Nat → β :=
  (stackLoop2 E L w).getD (fun _ _ => 0)

/-- The inner expert loop of `stackLoop2` at a fixed layer. -/
def innerLoop2 {β : Type*} [Zero β] (E l : Nat) (w : Nat → Nat → β)
    (acc : Option (Nat → Nat → β)) : Option (Nat → Nat → β) :=
  (List.range E).foldl (fun acc2 e => stackStep2 acc2 e l (w e l)) acc

/-- The sequence of layer indices written by the accumulation loop. -/
def writeIndices (L : Nat) : List Nat := List.range L

/-- The sequence of (expert, layer) pairs written by the nested loop, in
execution order. -/
def writeIndices2 (E L : Nat) : List (Nat × Nat) :=
  (List.range L).flatMap (fun l => (List.range E).map (fun e => (e, l)))

/-! ### Self-attention kernel assembly (lines 780-800 / 534-562)

Per layer the reshaped kernels `wq l, wk l, wv l : (embed, heads, head_dim)`
and `w_post l : (embed, heads, head_dim)` are stacked over layers, the stacks
transposed, and the query kernel alone divided by `np.sqrt(head_dim)`.  The
scalar `sqrt_head_dim` stands for `np.sqrt(head_dim)`, the sole use of the
head dimension in this final step. -/

/-- Uncurry a layer-indexed stack of 3-D tensors into a 4-D tensor. -/
def uncurry4 {α : Type*} (f : Nat → (Nat → Nat → Nat → α)) :
    Nat → Nat → Nat → Nat → α :=
  fun a b c d => f a b c d

/-- The final query kernel: stack over layers, transpose `(1,0,2,3)`, then
divide elementwise by `np.sqrt(head_dim)` (lines 787, 792, 800). -/
def self_attention_query {α : Type*} [DivisionRing α] (L : Nat)
    (wq : Nat → (Nat → Nat → Nat → α)) (sqrt_head_dim : α) :
    Nat → Nat → Nat → Nat → α :=
  fun a b c d => np_transpose_1023 (uncurry4 (stackResult L wq)) a b c d / sqrt_head_dim

/-- The final key kernel: stack over layers then transpose `(1,0,2,3)`
(lines 788, 793); no scaling. -/
def self_attention_key {α : Type*} [Zero α] (L : Nat)
    (wk : Nat → (Nat → Nat → Nat → α)) : Nat → Nat → Nat → Nat → α :=
  np_transpose_1023 (uncurry4 (stackResult L wk))

/-- The final value kernel: stack over layers then transpose `(1,0,2,3)`
(lines 789, 794); no scaling. -/
def self_attention_value {α : Type*} [Zero α] (L : Nat)
    (wv : Nat → (Nat → Nat → Nat → α)) : Nat → Nat → Nat → Nat → α :=
  np_transpose_1023 (uncurry4 (stackResult L wv))

/-- The final out kernel: stack over layers then transpose `(2,0,3,1)`
(lines 790, 797); no scaling. -/
def self_attention_out {α : Type*} [Zero α] (L : Nat)
    (wo : Nat → (Nat → Nat → Nat → α)) : Nat → Nat → Nat → Nat → α :=
  np_transpose_2031 (uncurry4 (stackResult L wo))

/-! ### Name-Mapping Table and Namespace Adapter (lines 159-236) -/

/-- `_hf_mapping(layer_idx, expert_idx)` (lines 159-189): the source-name to
HuggingFace-name table, parameterized by the layer and expert indices
(Python defaults both to `-1`; `applyMapping` below supplies the defaults). -/
def hf_mapping (layer_idx expert_idx : Int) : List (String × String) :=
  let l := toString layer_idx
  let e := toString expert_idx
  [ ("tok_embeddings.weight", "model.embed_tokens.weight"),
    ("norm.weight", "model.norm.weight"),
    ("output.weight", "lm_head.weight"),
    ("layers." ++ l ++ ".attention_norm.weight",
     "model.layers." ++ l ++ ".input_layernorm.weight"),
    ("layers." ++ l ++ ".ffn_norm.weight",
     "model.layers." ++ l ++ ".post_attention_layernorm.weight"),
    ("layers." ++ l ++ ".attention.wq.weight",
     "model.layers." ++ l ++ ".self_attn.q_proj.weight"),
    ("layers." ++ l ++ ".attention.wk.weight",
     "model.layers." ++ l ++ ".self_attn.k_proj.weight"),
    ("layers." ++ l ++ ".attention.wv.weight",
     "model.layers." ++ l ++ ".self_attn.v_proj.weight"),
    ("layers." ++ l ++ ".attention.wo.weight",
     "model.layers." ++ l ++ ".self_attn.o_proj.weight"),
    ("layers." ++ l ++ ".feed_forward.gate.weight",
     "model.layers." ++ l ++ ".block_sparse_moe.gate.weight"),
    ("layers." ++ l ++ ".feed_forward.experts." ++ e ++ ".w1.weight",
     "model.layers." ++ l ++ ".block_sparse_moe.experts." ++ e ++ ".w1.weight"),
    ("layers." ++ l ++ ".feed_forward.experts." ++ e ++ ".w2.weight",
     "model.layers." ++ l ++ ".block_sparse_moe.experts." ++ e ++ ".w2.weight"),
    ("layers." ++ l ++ ".feed_forward.experts." ++ e ++ ".w3.weight",
     "model.layers." ++ l ++ ".block_sparse_moe.experts." ++ e ++ ".w3.weight"),
    ("layers." ++ l ++ ".feed_forward.w1.weight",
     "model.layers." ++ l ++ ".mlp.gate_proj.weight"),
    ("layers." ++ l ++ ".feed_forward.w2.weight",
     "model.layers." ++ l ++ ".mlp.down_proj.weight"),
    ("layers." ++ l ++ ".feed_forward.w3.weight",
     "model.layers." ++ l ++ ".mlp.up_proj.weight"),
    ("layers." ++ l ++ ".attention.wq.lora_A.weights",
     "base_model.model.model.layers." ++ l ++ ".self_attn.q_proj.lora_A.weight"),
    ("layers." ++ l ++ ".attention.wq.lora_B.weights",
     "base_model.model.model.layers." ++ l ++ ".self_attn.q_proj.lora_B.weight"),
    ("layers." ++ l ++ ".attention.wk.lora_A.weights",
     "base_model.model.model.layers." ++ l ++ ".self_attn.k_proj.lora_A.weight"),
    ("layers." ++ l ++ ".attention.wk.lora_B.weights",
     "base_model.model.model.layers." ++ l ++ ".self_attn.k_proj.lora_B.weight"),
    ("layers." ++ l ++ ".attention.wv.lora_A.weights",
     "base_model.model.model.layers." ++ l ++ ".self_attn.v_proj.lora_A.weight"),
    ("layers." ++ l ++ ".attention.wv.lora_B.weights",
     "base_model.model.model.layers." ++ l ++ ".self_attn.v_proj.lora_B.weight"),
    ("layers." ++ l ++ ".attention.wo.lora_A.weights",
     "base_model.model.model.layers." ++ l ++ ".self_attn.o_proj.lora_A.weight"),
    ("layers." ++ l ++ ".attention.wo.lora_B.weights",
     "base_model.model.model.layers." ++ l ++ ".self_attn.o_proj.lora_B.weight") ]

/-- Python `key.split(".")` over the string's characters: split at every
dot, keeping empty fields. -/
def splitDotChars : List Char → List (List Char)
  | [] => [[]]
  | c :: cs =>
    if c = '.' then [] :: splitDotChars cs
    else
      match splitDotChars cs with
      | [] => [[c]]
      | f :: fs => (c :: f) :: fs

/-- Python `key.split(self.delimiter)` with the default delimiter `"."`
(line 228). -/
def splitDot (key : String) : List String :=
  (splitDotChars key.data).map String.mk

/-- The dotted segments of a key that start with a digit (line 229:
`re.match(r"[0-9]+", field)` tests for one or more leading digits). -/
def numericFields (key : String) : List String :=
  (splitDot key).filter (fun f => !f.isEmpty && f.front.isDigit)

/-- Python `int(field)` on the filtered fields: succeeds exactly on
all-digit fields (checkpoint keys contain no exotic numeric forms such as
digit separators or embedded whitespace; on such fields this model errors
where Python may parse, but either way the subsequent mapping lookup fails,
so the adapter's observable ok/error outcome is unchanged). -/
def pyInt? (s : String) : Option Nat :=
  if !s.data.isEmpty && s.data.all Char.isDigit then
    some (s.data.foldl (fun n c => n * 10 + (c.toNat - '0'.toNat)) 0)
  else
    none

/-- The list comprehension of line 229: `int(field)` over the digit-leading
fields, failing if any conversion fails. -/
def numsOf (fields : List String) : Option (List Nat) :=
  fields.mapM pyInt?

/-- `_hf_mapping(*num_fields)` (line 230): `_hf_mapping` takes at most two
positional arguments, each defaulting to `-1`; more than two integer-valued
fields is a TypeError (modelled as `none`). -/
def applyMapping : List Nat → Option (List (String × String))
  | [] => some (hf_mapping (-1) (-1))
  | [l] => some (hf_mapping (l : Int) (-1))
  | [l, e] => some (hf_mapping (l : Int) (e : Int))
  | _ => none

/-- The mapped counterpart of a key, when the integer-valued segments can be
extracted and the parameterized mapping has an entry for the key. -/
def mappedKey (key : String) : Option String :=
  match numsOf (numericFields key) with
  | none => none
  | some nums =>
    match applyMapping nums with
    | none => none
    | some mapping => mapping.lookup key

/-- `_HFNamespaceMapper.__getitem__` (lines 225-236): the literal key wins;
otherwise extract integer segments, parameterize the mapping, and look up the
mapped counterpart; every other case raises. -/
def getItem {V : Type*} (collection : List (String × V)) (key : String) :
    Except String V :=
  match collection.lookup key with
  | some v => .ok v
  | none =>
    match numsOf (numericFields key) with
    | none => .error "invalid literal for int()"
    | some nums =>
      match applyMapping nums with
      | none => .error "too many positional arguments"
      | some mapping =>
        match mapping.lookup key with
        | none => .error "Key is missing from the original collection and from the mapping."
        | some new_key =>
          match collection.lookup new_key with
          | none => .error "New key mapped from key is missing from the collection."
          | some v => .ok v

/-! ### LoRA Layout Transformer (lines 246-273, 348-427) -/

/-- Uncurry a layer-indexed stack of 2-D tensors into a 3-D tensor. -/
def uncurry3 {α : Type*} (f : Nat → (Nat → Nat → α)) : Nat → Nat → Nat → α :=
  fun a b c => f a b c

/-- q/k/v LoRA A factor (lines 260, 263: `reshape_a` is not set on the
q/k/v calls): the loaded factor transposed, not reshaped. -/
def lora_qkv_A {α : Type*} (A : Nat → Nat → α) : Nat → Nat → α :=
  np_transpose2 A

/-- q/k/v LoRA B factor (lines 261, 265-266 with `reshape_b=True`): the
loaded factor transposed, then reshaped to `(rank, num_heads, head_dim)`. -/
def lora_qkv_B {α : Type*} (D : Nat) (B : Nat → Nat → α) : Nat → Nat → Nat → α :=
  np_reshape_rank3 D (np_transpose2 B)

/-- out-projection LoRA A factor (lines 387, 390-392): loaded WITHOUT the
transpose applied on the q/k/v path, then reshaped to
`(rank, num_heads, head_dim)`. -/
def lora_out_A {α : Type*} (D : Nat) (A : Nat → Nat → α) : Nat → Nat → Nat → α :=
  np_reshape_rank3 D A

/-- out-projection LoRA B factor (lines 388, 399): loaded without transpose
and stored unchanged. -/
def lora_out_B {α : Type*} (B : Nat → Nat → α) : Nat → Nat → α :=
  B

/-- The out-projection A factor as the claim words it (transposed like the
q/k/v factors, then reshaped); compared against `lora_out_A`. -/
def claimed_lora_out_A {α : Type*} (D : Nat) (A : Nat → Nat → α) :
    Nat → Nat → Nat → α :=
  np_reshape_rank3 D (np_transpose2 A)

/-- The out-projection B factor as the claim words it (transposed);
compared against `lora_out_B`. -/
def claimed_lora_out_B {α : Type*} (B : Nat → Nat → α) : Nat → Nat → α :=
  np_transpose2 B

/-- Final stacked q/k/v `lora_a.kernel` (lines 272, 402-404): per-layer
processed factors stacked then transposed `(1,0,2)`. -/
def lora_qkv_a_kernel {α : Type*} [Zero α] (L : Nat) (A : Nat → (Nat → Nat → α)) :
    Nat → Nat → Nat → α :=
  np_transpose_102 (uncurry3 (stackResult L (fun l => lora_qkv_A (A l))))

/-- Final stacked q/k/v `lora_b.kernel` (lines 273, 405-407): per-layer
processed factors stacked then transposed `(1,0,2,3)`. -/
def lora_qkv_b_kernel {α : Type*} [Zero α] (L D : Nat) (B : Nat → (Nat → Nat → α)) :
    Nat → Nat → Nat → Nat → α :=
  np_transpose_1023 (uncurry4 (stackResult L (fun l => lora_qkv_B D (B l))))

/-- Final stacked out `lora_a.kernel` (lines 398, 424-426): per-layer
processed factors stacked then transposed `(2,0,3,1)`. -/
def lora_out_a_kernel {α : Type*} [Zero α] (L D : Nat) (A : Nat → (Nat → Nat → α)) :
    Nat → Nat → Nat → Nat → α :=
  np_transpose_2031 (uncurry4 (stackResult L (fun l => lora_out_A D (A l))))

/-- Final stacked out `lora_b.kernel` (lines 399, 427): per-layer factors
stacked then transposed `(1,0,2)`. -/
def lora_out_b_kernel {α : Type*} [Zero α] (L : Nat) (B : Nat → (Nat → Nat → α)) :
    Nat → Nat → Nat → α :=
  np_transpose_102 (uncurry3 (stackResult L (fun l => lora_out_B (B l))))

/-! ### Multi-shard concatenation and the KV stride (lines 749-776) -/

/-- `wkv_step = 1 if model_size != "llama3.1-405b" else 2` (line 750). -/
def wkv_step (model_size : String) : Nat :=
  if model_size ≠ "llama3.1-405b" then 1 else 2

/-- Python extended slice `l[::step]` for `step ≥ 1`: the elements whose
index is a multiple of `step`. -/
def everyNth {σ : Type*} (step : Nat) (l : List σ) : List σ :=
  (l.enum.filter (fun p => p.1 % step = 0)).map Prod.snd

/-- The shard files contributing to the K and V concatenations
(lines 756-763): `chkpt_vars[::wkv_step]`. -/
def kv_shards {σ : Type*} (model_size : String) (chkpt_vars : List σ) : List σ :=
  everyNth (wkv_step model_size) chkpt_vars

/-- The shard files contributing to the Q and output concatenations
(lines 753-755, 773-776): all of `chkpt_vars`. -/
def q_shards {σ : Type*} (chkpt_vars : List σ) : List σ :=
  chkpt_vars

/-! ### MoE gate processing (lines 874-881, 923-925 and 630-637) -/

/-- `np.concatenate(..., axis=0)` over equally sized shards, each with `R`
leading rows, as an index function. -/
def np_concat_shards {α : Type*} (R : Nat) (shards : Nat → (Nat → Nat → α)) :
    Nat → Nat → α :=
  fun i j => shards (i / R) (i % R) j

/-- PyTorch-path MoE gate, one layer (lines 875-877): concatenate the
per-shard gate tensors along axis 0, then transpose. -/
def pytorch_gate_layer {α : Type*} (R : Nat) (shards : Nat → (Nat → Nat → α)) :
    Nat → Nat → α :=
  np_transpose2 (np_concat_shards R shards)

/-- PyTorch-path dense projection (wi_0), one layer (lines 856-858): the
same concatenate-then-transpose recipe. -/
def pytorch_wi0_layer {α : Type*} (R : Nat) (shards : Nat → (Nat → Nat → α)) :
    Nat → Nat → α :=
  np_transpose2 (np_concat_shards R shards)

/-- PyTorch-path final gate kernel (lines 881, 924): per-layer gates stacked
then transposed `(1,0,2)`. -/
def pytorch_gate_kernel {α : Type*} [Zero α] (L R : Nat)
    (shards : Nat → Nat → (Nat → Nat → α)) : Nat → Nat → Nat → α :=
  np_transpose_102 (uncurry3 (stackResult L (fun l => pytorch_gate_layer R (shards l))))

/-- PyTorch-path final dense wi_0 kernel (lines 871, 918): per-layer tensors
stacked then transposed `(1,0,2)`. -/
def pytorch_wi0_kernel {α : Type*} [Zero α] (L R : Nat)
    (shards : Nat → Nat → (Nat → Nat → α)) : Nat → Nat → Nat → α :=
  np_transpose_102 (uncurry3 (stackResult L (fun l => pytorch_wi0_layer R (shards l))))

/-- Python string indexing `s[k]` with a string key `k`: a TypeError
("string indices must be integers"), whatever the strings are. -/
def pyStrGetItem {γ : Type*} (_s _k : String) : Except String γ :=
  .error "string indices must be integers"

/-- HuggingFace-path MoE gate, one layer (lines 630-633).  On this path
`chkpt_vars` is a dict, so `for var in chkpt_vars` iterates its KEYS
(strings); each comprehension element then indexes a string with a string
key.  An empty dict instead makes `np.concatenate([])` raise. -/
def hf_gate_layer {γ : Type*} (chkpt_vars : List (String × γ)) (layer_idx : Nat) :
    Except String (List γ) :=
  match (chkpt_vars.map Prod.fst).mapM
      (fun var =>
        pyStrGetItem var ("layers." ++ toString layer_idx ++ ".feed_forward.gate.weight")) with
  | .error e => .error e
  | .ok parts =>
    if parts.isEmpty then .error "need at least one array to concatenate"
    else .ok parts

/-! ### LoRA k/v reshape shapes (lines 362-384) -/

/-- `np.reshape` succeeds exactly when the element count is preserved. -/
def np_reshape_ok (oldShape newShape : List Nat) : Bool :=
  oldShape.prod == newShape.prod

/-- `shape_b` passed for the `k_proj` and `v_proj` target modules
(lines 369, 381): parameterized by the QUERY head count
(`base_num_query_heads = model_params["num_heads"]`). -/
def lora_kv_shape_b (p : ModelParams) (lora_rank : Nat) : List Nat :=
  [lora_rank, p.num_heads, p.dims_per_head]

/-- Shape of the transposed k/v LoRA B factor: the source factor has
`num_kv_heads * head_dim` output features and rank many columns after
`.transpose()` flips it to `(rank, num_kv_heads * head_dim)`. -/
def lora_kv_B_shape (p : ModelParams) (lora_rank : Nat) : List Nat :=
  [lora_rank, p.num_kv_heads * p.dims_per_head]

/-! ### Lemmas about the accumulation loops -/

theorem stackLoop_succ {β : Type*} [Zero β] (L : Nat) (w : Nat → β) :
    stackLoop (L + 1) w = stackStep (stackLoop L w) L (w L) := by
  simp [stackLoop, List.range_succ]

theorem stackResult_succ {β : Type*} [Zero β] (L : Nat) (w : Nat → β) :
    stackResult (L + 1) w = Function.update (stackResult L w) L (w L) := by
  simp [stackResult, stackLoop_succ, stackStep]

/-- Every slice the loop wrote holds the source value for its layer. -/
theorem stackResult_eq {β : Type*} [Zero β] (L : Nat) (w : Nat → β) (l : Nat)
    (hl : l < L) : stackResult L w l = w l := by
  induction L with
  | zero => omega
  | succ n ih =>
    rw [stackResult_succ]
    by_cases h : l = n
    · subst h; simp [Function.update_same]
    · rw [Function.update_noteq h]
      exact ih (by omega)

theorem stackLoop2_succ {β : Type*} [Zero β] (E L : Nat) (w : Nat → Nat → β) :
    stackLoop2 E (L + 1) w = innerLoop2 E L w (stackLoop2 E L w) := by
  simp [stackLoop2, innerLoop2, List.range_succ]

theorem innerLoop2_succ {β : Type*} [Zero β] (E l : Nat) (w : Nat → Nat → β)
    (acc : Option (Nat → Nat → β)) :
    innerLoop2 (E + 1) l w acc = stackStep2 (innerLoop2 E l w acc) E l (w E l) := by
  simp [innerLoop2, List.range_succ]

/-- After the inner loop at layer `l`, every expert slot `e < E` of layer `l`
holds the source value. -/
theorem innerLoop2_eq_of_lt {β : Type*} [Zero β] (E l : Nat) (w : Nat → Nat → β)
    (acc : Option (Nat → Nat → β)) (e : Nat) (he : e < E) :
    (innerLoop2 E l w acc).getD (fun _ _ => 0) e l = w e l := by
  induction E with
  | zero => omega
  | succ n ih =>
    rw [innerLoop2_succ]
    by_cases h : e = n
    · subst h; simp [stackStep2]
    · simp only [stackStep2, Option.getD_some]
      rw [if_neg (by tauto)]
      exact ih (by omega)

/-- The inner loop at layer `l` does not touch entries of other layers. -/
theorem innerLoop2_preserves {β : Type*} [Zero β] (E l : Nat) (w : Nat → Nat → β)
    (acc : Option (Nat → Nat → β)) (e' l' : Nat) (hl : l' ≠ l) :
    (innerLoop2 E l w acc).getD (fun _ _ => 0) e' l'
      = acc.getD (fun _ _ => 0) e' l' := by
  induction E with
  | zero => simp [innerLoop2]
  | succ n ih =>
    rw [innerLoop2_succ]
    simp only [stackStep2, Option.getD_some]
    rw [if_neg (by tauto)]
    exact ih

/-- Every (expert, layer) slot the nested loop wrote holds the source value. -/
theorem stackResult2_eq {β : Type*} [Zero β] (E L : Nat) (w : Nat → Nat → β)
    (e l : Nat) (he : e < E) (hl : l < L) : stackResult2 E L w e l = w e l := by
  induction L with
  | zero => omega
  | succ n ih =>
    rw [stackResult2, stackLoop2_succ]
    by_cases h : l = n
    · subst h; exact innerLoop2_eq_of_lt E l w _ e he
    · rw [innerLoop2_preserves E n w _ e l h]
      exact ih (by omega)

theorem writeIndices2_eq_product (E L : Nat) :
    writeIndices2 E L
      = ((List.range L) ×ˢ (List.range E)).map (fun p => (p.2, p.1)) := by
  rw [show (List.range L) ×ˢ (List.range E)
        = (List.range L).flatMap (fun a => (List.range E).map (Prod.mk a)) from rfl]
  rw [List.map_flatMap]
  simp [writeIndices2, List.map_map, Function.comp_def]

theorem writeIndices2_nodup (E L : Nat) : (writeIndices2 E L).Nodup := by
  rw [writeIndices2_eq_product]
  exact ((List.nodup_range L).product (List.nodup_range E)).map
    (fun p q h => by
      cases p; cases q
      simpa [Prod.ext_iff, and_comm] using h)

theorem mem_writeIndices2 (E L e l : Nat) :
    (e, l) ∈ writeIndices2 E L ↔ e < E ∧ l < L := by
  rw [writeIndices2_eq_product]
  constructor
  · intro h
    rcases List.mem_map.mp h with ⟨p, hp, hpe⟩
    rcases List.mem_product.mp hp with ⟨h1, h2⟩
    cases hpe
    exact ⟨List.mem_range.mp h2, List.mem_range.mp h1⟩
  · intro ⟨h1, h2⟩
    exact List.mem_map.mpr ⟨(l, e),
      List.mem_product.mpr ⟨List.mem_range.mpr h2, List.mem_range.mpr h1⟩, rfl⟩

/-! ### Lemmas about the RoPE slice operations -/

theorem sliceEvens_interleave {α : Type*} :
    ∀ (E O : List α), E.length = O.length → sliceEvens (interleave E O) = E := by
  intro E
  induction E with
  | nil =>
    intro O h
    cases O with
    | nil => rfl
    | cons y ys => simp at h
  | cons x xs ih =>
    intro O h
    cases O with
    | nil => simp at h
    | cons y ys =>
      simp only [List.length_cons, Nat.succ_inj] at h
      simp only [interleave, sliceEvens]
      rw [ih ys h]

theorem sliceOdds_interleave {α : Type*} :
    ∀ (E O : List α), E.length = O.length → sliceOdds (interleave E O) = O := by
  intro E
  induction E with
  | nil =>
    intro O h
    cases O with
    | nil => rfl
    | cons y ys => simp at h
  | cons x xs ih =>
    intro O h
    cases O with
    | nil => simp at h
    | cons y ys =>
      simp only [List.length_cons, Nat.succ_inj] at h
      show sliceEvens (y :: interleave xs ys) = y :: ys
      cases xs with
      | nil =>
        cases ys with
        | nil => rfl
        | cons z zs => simp at h
      | cons a as =>
        cases ys with
        | nil => simp at h
        | cons b bs =>
          show y :: sliceOdds (interleave (a :: as) (b :: bs)) = y :: b :: bs
          rw [ih (b :: bs) h]

/-! ### Lemma about the Python slice `l[::1]` -/

theorem everyNth_one {σ : Type*} (l : List σ) : everyNth 1 l = l := by
  have hfilter : l.enum.filter (fun p => p.1 % 1 = 0) = l.enum := by
    apply List.filter_eq_self.mpr
    intro a _
    simp [Nat.mod_one]
  rw [everyNth, hfilter, List.enum_map_snd]

/-! ## Claim theorems -/

/-- C2 (counterexample): the claim's concrete examples contradict the code:
for shape `(15, 32)` and device count 16 the selector shards axis 1 (since
`32 % 16 == 0`), not replication as claimed; for shape `(32, 15)` it shards
axis 0 (since `32 % 16 == 0`), not axis 1 as claimed. -/
theorem C2_counterexample :
    checkpoint_device_put 15 [32] 16 = ShardChoice.axis1 ∧
    checkpoint_device_put 15 [32] 16 ≠ ShardChoice.replicate ∧
    checkpoint_device_put 32 [15] 16 = ShardChoice.axis0 ∧
    checkpoint_device_put 32 [15] 16 ≠ ShardChoice.axis1 := by
  refine ⟨rfl, ?_, rfl, ?_⟩ <;> decide

/-- C2 (amended): the Sharding-Placement Selector shards along axis 0 when
the leading axis length is divisible by the device count; otherwise along
axis 1 when a second axis exists and is divisible; otherwise it replicates;
no other axis is ever selected (the selector's codomain has only these three
placements).  With device count 16: shape `(64, 37)` yields axis 0, shape
`(15, 32)` yields axis 1, and shape `(32, 15)` yields axis 0. -/
theorem C2_amended (s0 : Nat) (rest : List Nat) (d : Nat) (hd : 0 < d) :
    (checkpoint_device_put s0 rest d = ShardChoice.axis0 ↔ s0 % d = 0) ∧
    (checkpoint_device_put s0 rest d = ShardChoice.axis1 ↔
      s0 % d ≠ 0 ∧ ∃ s1, rest.head? = some s1 ∧ s1 % d = 0) ∧
    (checkpoint_device_put s0 rest d = ShardChoice.replicate ↔
      s0 % d ≠ 0 ∧ ∀ s1, rest.head? = some s1 → s1 % d ≠ 0) ∧
    checkpoint_device_put 64 [37] 16 = ShardChoice.axis0 ∧
    checkpoint_device_put 15 [32] 16 = ShardChoice.axis1 ∧
    checkpoint_device_put 32 [15] 16 = ShardChoice.axis0 := by
  refine ⟨?_, ?_, ?_, rfl, rfl, rfl⟩ <;>
    · by_cases h0 : s0 % d = 0
      · simp [checkpoint_device_put, h0]
      · cases rest with
        | nil => simp [checkpoint_device_put, h0]
        | cons s1 tl =>
          by_cases h1 : s1 % d = 0 <;> simp [checkpoint_device_put, h0, h1]

theorem C2_amended_witness :
    0 < 16 ∧
    (checkpoint_device_put 64 [37] 16 = ShardChoice.axis0 ↔ 64 % 16 = 0) ∧
    checkpoint_device_put 64 [37] 16 = ShardChoice.axis0 ∧
    checkpoint_device_put 15 [32] 16 = ShardChoice.axis1 ∧
    checkpoint_device_put 32 [15] 16 = ShardChoice.axis0 := by
  have h := C2_amended 64 [37] 16 (by decide)
  exact ⟨by decide, h.1, h.2.2.2.1, h.2.2.2.2.1, h.2.2.2.2.2⟩

/-- C3: the final stored query kernel is the layer-stacked, `(1,0,2,3)`-
transposed query array divided elementwise by the constant
`np.sqrt(head_dim)` (here the parameter `sqrt_head_dim`), and the key,
value and out kernels are the bare stacked transposes, with no scaling. -/
theorem C3_query_scaling {α : Type*} [DivisionRing α] (L : Nat)
    (wq wk wv wo : Nat → (Nat → Nat → Nat → α)) (sqrt_head_dim : α)
    (l : Nat) (hl : l < L) (e h d : Nat) :
    self_attention_query L wq sqrt_head_dim e l h d = wq l e h d / sqrt_head_dim ∧
    self_attention_key L wk e l h d = wk l e h d ∧
    self_attention_value L wv e l h d = wv l e h d ∧
    self_attention_out L wo h l d e = wo l e h d := by
  refine ⟨?_, ?_, ?_, ?_⟩ <;>
    simp [self_attention_query, self_attention_key, self_attention_value,
      self_attention_out, np_transpose_1023, np_transpose_2031, uncurry4,
      stackResult_eq L _ l hl]

theorem C3_query_scaling_witness :
    1 < 2 ∧
    (self_attention_query 2 (fun l e h d => ((l + e + h + d : Nat) : ℚ)) 7 0 1 0 0
        = ((1 + 0 + 0 + 0 : Nat) : ℚ) / 7 ∧
      self_attention_key 2 (fun l e h d => ((l + e + h + d : Nat) : ℚ)) 0 1 0 0
        = ((1 + 0 + 0 + 0 : Nat) : ℚ) ∧
      self_attention_value 2 (fun l e h d => ((l + e + h + d : Nat) : ℚ)) 0 1 0 0
        = ((1 + 0 + 0 + 0 : Nat) : ℚ) ∧
      self_attention_out 2 (fun l e h d => ((l + e + h + d : Nat) : ℚ)) 0 1 0 0
        = ((1 + 0 + 0 + 0 : Nat) : ℚ)) :=
  ⟨by decide,
    C3_query_scaling 2 (fun l e h d => ((l + e + h + d : Nat) : ℚ))
      (fun l e h d => ((l + e + h + d : Nat) : ℚ))
      (fun l e h d => ((l + e + h + d : Nat) : ℚ))
      (fun l e h d => ((l + e + h + d : Nat) : ℚ)) 7 1 (by decide) 0 0 0⟩

/-- C4: applying `permute_to_match_maxtext_rope` to an array whose last axis
interleaves two equal-length sequences `E` and `O` (element `2i` from `E`,
`2i+1` from `O`) yields the array whose last axis is `E ++ O`, with all
other axes unchanged. -/
theorem C4_rope_deinterleave {ι α : Type*} (arr E O : ι → List α)
    (hlen : ∀ i, (E i).length = (O i).length)
    (hint : ∀ i, arr i = interleave (E i) (O i)) :
    permute_rope_nd arr = fun i => E i ++ O i := by
  funext i
  rw [permute_rope_nd, permute_to_match_maxtext_rope, hint i,
    sliceEvens_interleave _ _ (hlen i), sliceOdds_interleave _ _ (hlen i)]

theorem C4_rope_deinterleave_witness :
    ([(1 : ℚ), 3].length = [(2 : ℚ), 4].length) ∧
    ([(1 : ℚ), 2, 3, 4] = interleave [(1 : ℚ), 3] [(2 : ℚ), 4]) ∧
    permute_rope_nd (fun _ : Unit => [(1 : ℚ), 2, 3, 4])
      = fun _ : Unit => [(1 : ℚ), 3] ++ [(2 : ℚ), 4] := by
  refine ⟨by decide, by decide,
    C4_rope_deinterleave _ (fun _ => [(1 : ℚ), 3]) (fun _ => [(2 : ℚ), 4]) ?_ ?_⟩ <;>
    · intro i
      cases i
      decide

/-- Each (expert, layer) pair appears exactly once in the nested loop's
write sequence. -/
theorem count_writeIndices2 (E L e l : Nat) (he : e < E) (hl : l < L) :
    (writeIndices2 E L).count (e, l) = 1 := by
  have hc : (writeIndices2 E L).count (e, l)
      = @List.count _ instBEqOfDecidableEq (e, l) (writeIndices2 E L) := by
    simp only [List.count]
    apply List.countP_congr
    intro x _
    simp only [beq_iff_eq, instBEqOfDecidableEq, decide_eq_true_eq]
  rw [hc]
  exact List.count_eq_one_of_mem (writeIndices2_nodup E L)
    ((mem_writeIndices2 E L e l).mpr ⟨he, hl⟩)

/-- C6: after the accumulation loops complete, every layer slot (and, for
mixture-of-experts leaves, every (expert, layer) slot) of a stacked leaf
holds the value of the source tensor loaded for that slot; each slot is
written exactly once by the loop's write sequence; hence no slot retains its
zero-filled initial value when the source value is nonzero. -/
theorem C6_stack_complete :
    (∀ (β : Type) (_ : Zero β) (L : Nat) (w : Nat → β) (l : Nat), l < L →
      stackResult L w l = w l ∧ (writeIndices L).count l = 1 ∧
        (w l ≠ 0 → stackResult L w l ≠ 0)) ∧
    (∀ (β : Type) (_ : Zero β) (E L : Nat) (w : Nat → Nat → β) (e l : Nat),
      e < E → l < L →
      stackResult2 E L w e l = w e l ∧ (writeIndices2 E L).count (e, l) = 1 ∧
        (w e l ≠ 0 → stackResult2 E L w e l ≠ 0)) := by
  constructor
  · intro β _ L w l hl
    refine ⟨stackResult_eq L w l hl, ?_, ?_⟩
    · exact List.count_eq_one_of_mem (List.nodup_range L) (List.mem_range.mpr hl)
    · intro hw
      rw [stackResult_eq L w l hl]
      exact hw
  · intro β _ E L w e l he hl
    refine ⟨stackResult2_eq E L w e l he hl, ?_, ?_⟩
    · exact count_writeIndices2 E L e l he hl
    · intro hw
      rw [stackResult2_eq E L w e l he hl]
      exact hw

theorem C6_stack_complete_witness :
    (1 < 2 ∧
      (stackResult 2 (fun l => (l : ℚ) + 1) 1 = (1 : ℚ) + 1 ∧
        (writeIndices 2).count 1 = 1 ∧
        ((1 : ℚ) + 1 ≠ 0 → stackResult 2 (fun l => (l : ℚ) + 1) 1 ≠ 0))) ∧
    (1 < 2 ∧ 2 < 3 ∧
      (stackResult2 2 3 (fun e l => (e : ℚ) + l + 1) 1 2 = (1 : ℚ) + 2 + 1 ∧
        (writeIndices2 2 3).count (1, 2) = 1 ∧
        ((1 : ℚ) + 2 + 1 ≠ 0 → stackResult2 2 3 (fun e l => (e : ℚ) + l + 1) 1 2 ≠ 0))) :=
  ⟨⟨by decide, C6_stack_complete.1 ℚ inferInstance 2 (fun l => (l : ℚ) + 1) 1 (by decide)⟩,
    ⟨by decide, by decide,
      C6_stack_complete.2 ℚ inferInstance 2 3 (fun e l => (e : ℚ) + l + 1) 1 2
        (by decide) (by decide)⟩⟩

/-- C1 (counterexample): at the supported model size `llama2-7b` — which is
not in the llama3 family — the PyTorch-shard path applies the RoPE
permutation but the HuggingFace safetensors path does not (its guard is
`model_size[:8] == "llama3.1"`), so the condition is not the same on both
conversion paths as the claim states. -/
theorem C1_counterexample :
    ("llama2-7b" ∈ supported_model_sizes) ∧
    llama3_variants.contains ("llama2-7b".take 8) = false ∧
    pytorch_applies_rope "llama2-7b" = true ∧
    hf_applies_rope "llama2-7b" = false ∧
    hf_rope_step "llama2-7b" (fun _ : Unit => [(0 : ℚ), 1, 2, 3])
      = (fun _ : Unit => [(0 : ℚ), 1, 2, 3]) ∧
    permute_rope_nd (fun _ : Unit => [(0 : ℚ), 1, 2, 3])
      = (fun _ : Unit => [(0 : ℚ), 2, 1, 3]) := by
  refine ⟨by decide, by decide, by decide, by decide, ?_, ?_⟩
  · rw [hf_rope_step, if_neg (by decide)]
  · funext i
    cases i
    decide

/-- C1 (amended): for every supported model size, the PyTorch-shard path
applies the RoPE permutation iff the size's 8-character prefix is not in
`llama3_variants`, while the HuggingFace safetensors path applies it iff
that prefix equals `"llama3.1"`; the two conditions coincide only for
`llama3.3-70b`. -/
theorem C1_amended :
    ∀ ms ∈ supported_model_sizes,
      (pytorch_applies_rope ms = true ↔ ms.take 8 ∉ llama3_variants) ∧
      (hf_applies_rope ms = true ↔ ms.take 8 = "llama3.1") ∧
      (pytorch_applies_rope ms = hf_applies_rope ms ↔ ms = "llama3.3-70b") := by
  intro ms hms
  simp only [supported_model_sizes, MODEL_PARAMS_DICT, List.map_cons, List.map_nil,
    List.mem_cons, List.not_mem_nil, or_false] at hms
  rcases hms with h | h | h | h | h | h | h | h | h | h | h | h <;> subst h <;>
    exact ⟨by decide, by decide, by decide⟩

theorem C1_amended_witness :
    ("llama3.1-8b" ∈ supported_model_sizes) ∧
    ((pytorch_applies_rope "llama3.1-8b" = true
        ↔ "llama3.1-8b".take 8 ∉ llama3_variants) ∧
      (hf_applies_rope "llama3.1-8b" = true ↔ "llama3.1-8b".take 8 = "llama3.1") ∧
      (pytorch_applies_rope "llama3.1-8b" = hf_applies_rope "llama3.1-8b"
        ↔ "llama3.1-8b" = "llama3.3-70b")) :=
  ⟨by decide, C1_amended "llama3.1-8b" (by decide)⟩

/-- C7 (counterexample): for the output projection the code transposes
NEITHER low-rank factor (the source comments this explicitly), so the
stored out factors differ from the claim's transposed factors at a concrete
input. -/
theorem C7_counterexample :
    lora_out_B (fun i j => if i = 0 ∧ j = 1 then (1 : ℚ) else 0) 0 1
      ≠ claimed_lora_out_B (fun i j => if i = 0 ∧ j = 1 then (1 : ℚ) else 0) 0 1 ∧
    lora_out_A 2 (fun i j => if i = 0 ∧ j = 1 then (1 : ℚ) else 0) 0 0 1
      ≠ claimed_lora_out_A 2 (fun i j => if i = 0 ∧ j = 1 then (1 : ℚ) else 0) 0 0 1 := by
  constructor <;> decide

/-- C7 (amended): for the query/key/value projections both factors are
transposed and the transposed B factor is reshaped into
`(rank, num_heads, head_dim)`; for the output projection neither factor is
transposed and the A factor (not B) is reshaped into
`(rank, num_heads, head_dim)`.  The final stacked kernels therefore satisfy
the stated index identities. -/
theorem C7_amended {α : Type*} [Zero α] (L D : Nat) (A B : Nat → (Nat → Nat → α))
    (l : Nat) (hl : l < L) (i j h d : Nat) :
    lora_qkv_A (A l) = np_transpose2 (A l) ∧
    lora_qkv_B D (B l) = np_reshape_rank3 D (np_transpose2 (B l)) ∧
    lora_out_A D (A l) = np_reshape_rank3 D (A l) ∧
    lora_out_B (B l) = B l ∧
    lora_qkv_a_kernel L A j l i = A l i j ∧
    lora_qkv_b_kernel L D B i l h d = B l (h * D + d) i ∧
    lora_out_a_kernel L D A h l d i = A l i (h * D + d) ∧
    lora_out_b_kernel L B j l i = B l j i := by
  refine ⟨rfl, rfl, rfl, rfl, ?_, ?_, ?_, ?_⟩ <;>
    simp [lora_qkv_a_kernel, lora_qkv_b_kernel, lora_out_a_kernel,
      lora_out_b_kernel, np_transpose_102, np_transpose_1023, np_transpose_2031,
      uncurry3, uncurry4, stackResult_eq L _ l hl, lora_qkv_A, lora_qkv_B,
      lora_out_A, lora_out_B, np_transpose2, np_reshape_rank3]

theorem C7_amended_witness :
    0 < 1 ∧
    (lora_qkv_A ((fun _ i j => ((10 * i + j : Nat) : ℚ)) 0)
        = np_transpose2 ((fun _ i j => ((10 * i + j : Nat) : ℚ)) 0) ∧
      lora_qkv_B 2 ((fun _ i j => ((10 * i + j : Nat) : ℚ)) 0)
        = np_reshape_rank3 2 (np_transpose2 ((fun _ i j => ((10 * i + j : Nat) : ℚ)) 0)) ∧
      lora_out_A 2 ((fun _ i j => ((10 * i + j : Nat) : ℚ)) 0)
        = np_reshape_rank3 2 ((fun _ i j => ((10 * i + j : Nat) : ℚ)) 0) ∧
      lora_out_B ((fun _ i j => ((10 * i + j : Nat) : ℚ)) 0)
        = (fun _ i j => ((10 * i + j : Nat) : ℚ)) 0 ∧
      lora_qkv_a_kernel 1 (fun _ i j => ((10 * i + j : Nat) : ℚ)) 3 0 1
        = (fun _ i j => ((10 * i + j : Nat) : ℚ)) 0 1 3 ∧
      lora_qkv_b_kernel 1 2 (fun _ i j => ((10 * i + j : Nat) : ℚ)) 1 0 1 1
        = (fun _ i j => ((10 * i + j : Nat) : ℚ)) 0 (1 * 2 + 1) 1 ∧
      lora_out_a_kernel 1 2 (fun _ i j => ((10 * i + j : Nat) : ℚ)) 1 0 1 1
        = (fun _ i j => ((10 * i + j : Nat) : ℚ)) 0 1 (1 * 2 + 1) ∧
      lora_out_b_kernel 1 (fun _ i j => ((10 * i + j : Nat) : ℚ)) 3 0 1
        = (fun _ i j => ((10 * i + j : Nat) : ℚ)) 0 3 1) :=
  ⟨by decide,
    C7_amended 1 2 (fun _ i j => ((10 * i + j : Nat) : ℚ))
      (fun _ i j => ((10 * i + j : Nat) : ℚ)) 0 (by decide) 1 3 1 1⟩

/-- C10: the k/v LoRA conversion reshapes the transposed B factor using the
QUERY head count (`shape_b = [rank, num_query_heads, head_dim]`), so for
every supported configuration with `num_kv_heads ≠ num_heads` the reshape's
element-count precondition fails for a B factor with
`num_kv_heads * head_dim` output features. -/
theorem C10_kv_reshape_mismatch :
    ∀ ms p, (ms, p) ∈ MODEL_PARAMS_DICT → p.num_kv_heads ≠ p.num_heads →
      ∀ lora_rank, 0 < lora_rank →
        lora_kv_shape_b p lora_rank = [lora_rank, p.num_heads, p.dims_per_head] ∧
        np_reshape_ok (lora_kv_B_shape p lora_rank)
          (lora_kv_shape_b p lora_rank) = false := by
  intro ms p hmem hne r hr
  refine ⟨rfl, ?_⟩
  simp only [ MODEL_PARAMS_DICT, List.mem_cons, List.not_mem_nil, or_false,
    Prod.mk.injEq] at hmem
  rcases hmem with ⟨_, hp⟩ | ⟨_, hp⟩ | ⟨_, hp⟩ | ⟨_, hp⟩ | ⟨_, hp⟩ | ⟨_, hp⟩ |
    ⟨_, hp⟩ | ⟨_, hp⟩ | ⟨_, hp⟩ | ⟨_, hp⟩ | ⟨_, hp⟩ | ⟨_, hp⟩ <;> subst hp <;>
    first
      | exact absurd rfl hne
      | (simp only [np_reshape_ok, lora_kv_B_shape, lora_kv_shape_b,
          List.prod_cons, List.prod_nil, beq_eq_false_iff_ne, ne_eq]
         omega)

theorem C10_kv_reshape_mismatch_witness :
    (("llama2-70b", llama2_70b_params) ∈ MODEL_PARAMS_DICT) ∧
    llama2_70b_params.num_kv_heads ≠ llama2_70b_params.num_heads ∧
    0 < 8 ∧
    (lora_kv_shape_b llama2_70b_params 8
        = [8, llama2_70b_params.num_heads, llama2_70b_params.dims_per_head] ∧
      np_reshape_ok (lora_kv_B_shape llama2_70b_params 8)
        (lora_kv_shape_b llama2_70b_params 8) = false) :=
  ⟨by decide, by decide, by decide,
    C10_kv_reshape_mismatch "llama2-70b" llama2_70b_params (by decide) (by decide)
      8 (by decide)⟩

/-- C5: the Namespace Adapter returns the literal key's value when present
(literal presence always wins); otherwise it returns the value of the mapped
counterpart obtained from the Name-Mapping Table parameterized by the key's
integer-valued dotted segments; it fails with an error exactly when the
literal key is absent and no mapped counterpart resolves to a present key. -/
theorem C5_namespace_lookup {V : Type} (collection : List (String × V))
    (key : String) :
    (∀ v, collection.lookup key = some v → getItem collection key = Except.ok v) ∧
    (∀ v, getItem collection key = Except.ok v ↔
      collection.lookup key = some v ∨
        (collection.lookup key = none ∧
          ∃ nk, mappedKey key = some nk ∧ collection.lookup nk = some v)) ∧
    ((∃ e, getItem collection key = Except.error e) ↔
      collection.lookup key = none ∧
        ∀ nk, mappedKey key = some nk → collection.lookup nk = none) := by
  cases h0 : collection.lookup key with
  | some v0 =>
    have hg : getItem collection key = Except.ok v0 := by simp [getItem, h0]
    refine ⟨?_, ?_, ?_⟩
    · intro v hv
      cases hv
      exact hg
    · intro v
      rw [hg]
      constructor
      · intro hv
        cases hv
        exact Or.inl rfl
      · rintro (hv | ⟨hnone, -⟩)
        · cases hv
          rfl
        · exact Option.noConfusion hnone
    · rw [hg]
      constructor
      · rintro ⟨e, he⟩
        exact Except.noConfusion he
      · rintro ⟨hnone, -⟩
        exact Option.noConfusion hnone
  | none =>
    have hbase : ∀ emsg : String, getItem collection key = Except.error emsg →
        mappedKey key = none →
        (∀ v, (none : Option V) = some v → getItem collection key = Except.ok v) ∧
        (∀ v, getItem collection key = Except.ok v ↔
          (none : Option V) = some v ∨
            ((none : Option V) = none ∧
              ∃ nk, mappedKey key = some nk ∧ collection.lookup nk = some v)) ∧
        ((∃ e, getItem collection key = Except.error e) ↔
          (none : Option V) = none ∧
            ∀ nk, mappedKey key = some nk → collection.lookup nk = none) := by
      intro emsg hg hm
      refine ⟨?_, ?_, ?_⟩
      · intro v hv
        exact Option.noConfusion hv
      · intro v
        rw [hg, hm]
        constructor
        · intro hv
          exact Except.noConfusion hv
        · rintro (hv | ⟨-, nk, hnk, -⟩)
          · exact Option.noConfusion hv
          · exact Option.noConfusion hnk
      · rw [hg, hm]
        exact ⟨fun _ => ⟨rfl, fun nk hnk => Option.noConfusion hnk⟩,
          fun _ => ⟨emsg, rfl⟩⟩
    cases h1 : numsOf (numericFields key) with
    | none =>
      exact hbase "invalid literal for int()" (by simp [getItem, h0, h1])
        (by simp [mappedKey, h1])
    | some nums =>
      cases h2 : applyMapping nums with
      | none =>
        exact hbase "too many positional arguments"
          (by simp [getItem, h0, h1, h2]) (by simp [mappedKey, h1, h2])
      | some mapping =>
        cases h3 : mapping.lookup key with
        | none =>
          exact hbase
            "Key is missing from the original collection and from the mapping."
            (by simp [getItem, h0, h1, h2, h3]) (by simp [mappedKey, h1, h2, h3])
        | some nk =>
          have hm : mappedKey key = some nk := by simp [mappedKey, h1, h2, h3]
          cases h4 : collection.lookup nk with
          | none =>
            have hg : getItem collection key
                = Except.error "New key mapped from key is missing from the collection." := by
              simp [getItem, h0, h1, h2, h3, h4]
            refine ⟨?_, ?_, ?_⟩
            · intro v hv
              exact Option.noConfusion hv
            · intro v
              rw [hg, hm]
              constructor
              · intro hv
                exact Except.noConfusion hv
              · rintro (hv | ⟨-, nk2, hnk2, hv2⟩)
                · exact Option.noConfusion hv
                · cases hnk2
                  rw [h4] at hv2
                  exact Option.noConfusion hv2
            · rw [hg, hm]
              constructor
              · intro _
                refine ⟨rfl, fun nk2 hnk2 => ?_⟩
                cases hnk2
                exact h4
              · intro _
                exact ⟨_, rfl⟩
          | some v0 =>
            have hg : getItem collection key = Except.ok v0 := by
              simp [getItem, h0, h1, h2, h3, h4]
            refine ⟨?_, ?_, ?_⟩
            · intro v hv
              exact Option.noConfusion hv
            · intro v
              rw [hg, hm]
              constructor
              · intro hv
                cases hv
                exact Or.inr ⟨rfl, nk, rfl, h4⟩
              · rintro (hv | ⟨-, nk2, hnk2, hv2⟩)
                · exact Option.noConfusion hv
                · cases hnk2
                  rw [h4] at hv2
                  cases hv2
                  rfl
            · rw [hg, hm]
              constructor
              · rintro ⟨e, he⟩
                exact Except.noConfusion he
              · rintro ⟨-, hall⟩
                have hcontra := hall nk rfl
                rw [h4] at hcontra
                exact Option.noConfusion hcontra

theorem C5_namespace_lookup_witness :
    (List.lookup "layers.3.attention_norm.weight"
        [("model.layers.3.input_layernorm.weight", 42)] = none ∧
      mappedKey "layers.3.attention_norm.weight"
        = some "model.layers.3.input_layernorm.weight" ∧
      List.lookup "model.layers.3.input_layernorm.weight"
        [("model.layers.3.input_layernorm.weight", 42)] = some 42) ∧
    getItem [("model.layers.3.input_layernorm.weight", 42)]
      "layers.3.attention_norm.weight" = Except.ok 42 := by
  refine ⟨⟨by decide, by decide, by decide⟩, ?_⟩
  exact ((C5_namespace_lookup [("model.layers.3.input_layernorm.weight", 42)]
      "layers.3.attention_norm.weight").2.1 42).mpr
    (Or.inr ⟨by decide, "model.layers.3.input_layernorm.weight", by decide, by decide⟩)

/-- C8: on the multi-shard PyTorch path the query and output projections
concatenate over every shard file, while key and value concatenate over the
stride-selected subset `chkpt_vars[::wkv_step]` with stride 2 exactly for
`llama3.1-405b` and stride 1 (all shards) for every other supported size. -/
theorem C8_kv_stride :
    ∀ ms ∈ supported_model_sizes, ∀ (σ : Type) (chkpt_vars : List σ),
      q_shards chkpt_vars = chkpt_vars ∧
      (ms = "llama3.1-405b" →
        wkv_step ms = 2 ∧ kv_shards ms chkpt_vars = everyNth 2 chkpt_vars) ∧
      (ms ≠ "llama3.1-405b" →
        wkv_step ms = 1 ∧ kv_shards ms chkpt_vars = chkpt_vars) := by
  intro ms hms σ chkpt_vars
  refine ⟨rfl, ?_, ?_⟩
  · intro h
    subst h
    exact ⟨rfl, rfl⟩
  · intro h
    have hw : wkv_step ms = 1 := by simp [wkv_step, h]
    exact ⟨hw, by rw [kv_shards, hw, everyNth_one]⟩

theorem C8_kv_stride_witness :
    ("llama3.1-405b" ∈ supported_model_sizes) ∧
    (q_shards [0, 1, 2, 3] = [0, 1, 2, 3] ∧
      ("llama3.1-405b" = "llama3.1-405b" →
        wkv_step "llama3.1-405b" = 2 ∧
          kv_shards "llama3.1-405b" [0, 1, 2, 3] = everyNth 2 [0, 1, 2, 3]) ∧
      ("llama3.1-405b" ≠ "llama3.1-405b" →
        wkv_step "llama3.1-405b" = 1 ∧
          kv_shards "llama3.1-405b" [0, 1, 2, 3] = [0, 1, 2, 3])) ∧
    everyNth 2 [0, 1, 2, 3] = [0, 2] :=
  ⟨by decide, C8_kv_stride "llama3.1-405b" (by decide) Nat [0, 1, 2, 3], by decide⟩

/-- C9: the claim holds on the PyTorch path — the gate kernel is assembled
by exactly the dense-projection recipe (concatenate shards on axis 0,
transpose, stack over layers, transpose `(1,0,2)`) — but the HuggingFace
path's gate computation always raises: there `chkpt_vars` is a dict, the
comprehension iterates its string keys, and indexing a string with a string
key is a TypeError, so no input can satisfy the claim on that path. -/
theorem C9_hf_gate_crash :
    (∀ (γ : Type) (chkpt_vars : List (String × γ)) (layer_idx : Nat),
      ∃ e, hf_gate_layer chkpt_vars layer_idx = Except.error e) ∧
    (∀ (α : Type) [Zero α] (L R : Nat) (shards : Nat → Nat → (Nat → Nat → α)),
      pytorch_gate_kernel L R shards = pytorch_wi0_kernel L R shards) ∧
    (∀ (α : Type) [Zero α] (R : Nat) (shards : Nat → Nat → (Nat → Nat → α))
      (l a c : Nat),
      pytorch_gate_kernel (l + 1) R shards a l c = shards l (c / R) (c % R) a) := by
  refine ⟨?_, ?_, ?_⟩
  · intro γ chkpt_vars layer_idx
    cases chkpt_vars with
    | nil => exact ⟨"need at least one array to concatenate", rfl⟩
    | cons p ps => exact ⟨"string indices must be integers", rfl⟩
  · intro α _ L R shards
    rfl
  · intro α _ R shards l a c
    simp [pytorch_gate_kernel, pytorch_gate_layer, np_transpose_102, uncurry3,
      np_transpose2, np_concat_shards, stackResult_eq (l + 1) _ l (Nat.lt_succ_self l)]

end MaxTextCkpt
